import Mathlib

set_option maxRecDepth 10000

/-
Verification of the multi-monitor coordinate/capture subsystem of the
screenshot tool (src/screenshot_tool_new.py), shallowly embedded in Lean.

Machine integers of the source are modelled as `Int` (Python integers are
unbounded, so no overflow wrapping is needed).  Python float arithmetic in
`save_optimized_image` is modelled two ways: exactly, by an executable
IEEE-754 double-precision round-to-nearest-even function over `ℚ`, and as
an exact-rational idealization, clearly named `..._exact`.
-/

/-- A display record as built by `ScreenshotTool.detect_monitors`
(src/screenshot_tool_new.py lines 204-219): virtual-screen pixel
coordinates of the monitor rectangle plus a primary flag.  The fields
`handle`, `name`, work-area rectangle and `scale_factor` play no role in
any claim and are omitted. -/
structure Monitor where
  left : Int
  top : Int
  right : Int
  bottom : Int
  width : Int
  height : Int
  is_primary : Bool
  deriving Repr, DecidableEq

/-- The ascending lexicographic order on the Python sort key
`(not x['is_primary'], x['left'], x['top'])` used at line 239:
primary displays strictly precede non-primary ones, and displays with
equal primary flag are ordered by `(left, top)`. -/
def monitorOrder (a b : Monitor) : Prop :=
  (a.is_primary = true ∧ b.is_primary = false) ∨
    (a.is_primary = b.is_primary ∧
      (a.left < b.left ∨ (a.left = b.left ∧ a.top ≤ b.top)))

instance : DecidableRel monitorOrder := fun a b => by
  unfold monitorOrder; infer_instance

instance : IsTotal Monitor monitorOrder := ⟨by
  intro a b
  unfold monitorOrder
  rcases Bool.eq_false_or_eq_true a.is_primary with ha | ha <;>
    rcases Bool.eq_false_or_eq_true b.is_primary with hb | hb <;>
      simp [ha, hb] <;> omega⟩

instance : IsTrans Monitor monitorOrder := ⟨by
  intro a b c hab hbc
  unfold monitorOrder at *
  rcases Bool.eq_false_or_eq_true a.is_primary with ha | ha <;>
    rcases Bool.eq_false_or_eq_true b.is_primary with hb | hb <;>
      rcases Bool.eq_false_or_eq_true c.is_primary with hc | hc <;>
        simp [ha, hb, hc] at * <;> omega⟩

/-- `self.monitors.sort(key=lambda x: (not x['is_primary'], x['left'], x['top']))`
(line 239): a stable ascending sort by the key, modelled by insertion sort
under `monitorOrder`. -/
def sortMonitors (l : List Monitor) : List Monitor :=
  List.insertionSort monitorOrder l

/-- The synthetic single-display fallback used by `detect_monitors`
(lines 244-259, 268-283, 287-302): one primary monitor at the origin of
the given size. -/
def fallbackMonitor (w h : Int) : Monitor :=
  { left := 0, top := 0, right := w, bottom := h,
    width := w, height := h, is_primary := true }

/-- Outcome of the Windows `EnumDisplayMonitors` path in `detect_monitors`:
either the enumerated list (possibly empty), or an exception caught by the
`except` clause at line 241. -/
inductive EnumOutcome where
  | ok (ms : List Monitor)
  | failure
  deriving Repr, DecidableEq

/-- `ScreenshotTool.detect_monitors` (lines 168-302).
`win32Api` is true when `sys.platform == "win32" and user32` holds; in that
case the enumeration `outcome` is sorted on success (line 239), and any
exception falls back to a single synthetic 1920x1080 primary display
(lines 241-259).  On other platforms the monitor list is the single
synthetic display of the size reported by the Tk toolkit (lines 260-283).
Finally, an empty list is replaced by the 1920x1080 fallback
(lines 285-302). -/
def detect_monitors (win32Api : Bool) (outcome : EnumOutcome)
    (tkW tkH : Int) : List Monitor :=
  let ms : List Monitor :=
    if win32Api then
      match outcome with
      | .ok ms => sortMonitors ms
      | .failure => [fallbackMonitor 1920 1080]
    else
      [fallbackMonitor tkW tkH]
  if ms.isEmpty then [fallbackMonitor 1920 1080] else ms

/-- The half-open containment test of `get_mouse_monitor` (lines 457-458):
`monitor['left'] <= x < monitor['right'] and monitor['top'] <= y < monitor['bottom']`. -/
def monitorContains (m : Monitor) (x y : Int) : Bool :=
  decide (m.left ≤ x ∧ x < m.right ∧ m.top ≤ y ∧ y < m.bottom)

/-- Index of the first list element satisfying `p`, mirroring the
`for i, monitor in enumerate(self.monitors): ... return i` loops of
`get_mouse_monitor` (lines 455-468). -/
def findFirstIdx (p : Monitor → Bool) : List Monitor → Option Nat
  | [] => none
  | m :: ms => if p m then some 0 else (findFirstIdx p ms).map (· + 1)

/-- `ScreenshotTool.get_mouse_monitor` (lines 436-476), as a function of the
pointer position `(x, y)`: the index of the first monitor containing the
pointer under the half-open rule; failing that, the index of the first
monitor flagged primary (lines 465-468); failing that, index 0 (line 471). -/
def get_mouse_monitor (monitors : List Monitor) (x y : Int) : Nat :=
  match findFirstIdx (fun m => monitorContains m x y) monitors with
  | some i => i
  | none =>
    match findFirstIdx (fun m => m.is_primary) monitors with
    | some i => i
    | none => 0

theorem findFirstIdx_eq_none_iff (p : Monitor → Bool) (l : List Monitor) :
    findFirstIdx p l = none ↔ ∀ m ∈ l, p m = false := by
  induction l with
  | nil => simp [findFirstIdx]
  | cons a l ih =>
    by_cases h : p a
    · simp [findFirstIdx, h]
    · have hstep : findFirstIdx p (a :: l) = (findFirstIdx p l).map (· + 1) := by
        simp [findFirstIdx, h]
      rw [hstep, Option.map_eq_none']
      rw [ih]
      constructor
      · intro hall m hm
        rcases List.mem_cons.mp hm with rfl | hm'
        · exact Bool.eq_false_iff.mpr h
        · exact hall m hm'
      · intro hall m hm
        exact hall m (List.mem_cons_of_mem a hm)

theorem findFirstIdx_eq_some (p : Monitor → Bool) :
    ∀ (l : List Monitor) (i : Nat), findFirstIdx p l = some i →
      i < l.length ∧ (∃ m, l[i]? = some m ∧ p m = true) ∧
        ∀ j, j < i → ∀ m', l[j]? = some m' → p m' = false := by
  intro l
  induction l with
  | nil => intro i h; simp [findFirstIdx] at h
  | cons a l ih =>
    intro i h
    by_cases ha : p a
    · simp [findFirstIdx, ha] at h
      subst h
      exact ⟨Nat.succ_pos _, ⟨a, by simp, ha⟩, fun j hj => by omega⟩
    · simp [findFirstIdx, ha] at h
      obtain ⟨i', hi', rfl⟩ := h
      obtain ⟨h1, ⟨m, hm, hpm⟩, h3⟩ := ih i' hi'
      refine ⟨by simpa using h1, ⟨m, by simpa using hm, hpm⟩, ?_⟩
      intro j hj m' hm'
      match j with
      | 0 =>
        simp at hm'
        subst hm'
        exact Bool.eq_false_iff.mpr ha
      | j + 1 =>
        simp at hm'
        exact h3 j (by omega) m' hm'

/-- The characterization of `get_mouse_monitor` claimed by the spec: the
returned index is in range; it is the first monitor containing the pointer
when one exists; otherwise the first monitor flagged primary when one
exists; otherwise 0. -/
def MouseResolutionSpec (monitors : List Monitor) (x y : Int) : Prop :=
  get_mouse_monitor monitors x y < monitors.length ∧
  ((∃ m ∈ monitors, monitorContains m x y = true) →
    ∃ m, monitors[get_mouse_monitor monitors x y]? = some m ∧
      monitorContains m x y = true ∧
      ∀ j, j < get_mouse_monitor monitors x y →
        ∀ m', monitors[j]? = some m' → monitorContains m' x y = false) ∧
  ((∀ m ∈ monitors, monitorContains m x y = false) →
    ((∃ m ∈ monitors, m.is_primary = true) →
      ∃ m, monitors[get_mouse_monitor monitors x y]? = some m ∧
        m.is_primary = true ∧
        ∀ j, j < get_mouse_monitor monitors x y →
          ∀ m', monitors[j]? = some m' → m'.is_primary = false) ∧
    ((∀ m ∈ monitors, m.is_primary = false) →
      get_mouse_monitor monitors x y = 0))

/-- The virtual-offset bookkeeping of `ScreenshotTool.start_area_screenshot`
(lines 490-529): in `'mouse'` mode with more than one monitor, the capture
is taken from the monitor under the pointer and `self.virtual_offset` is
set to that monitor's `(left, top)` (lines 516-523); every other path uses
the offset returned by `capture_all_screens` (`allOffset`). -/
def start_virtual_offset (mode : String) (monitors : List Monitor)
    (mx my : Int) (allOffset : Int × Int) : Int × Int :=
  if mode = "mouse" ∧ 1 < monitors.length then
    match monitors[get_mouse_monitor monitors mx my]? with
    | some m => (m.left, m.top)
    | none => allOffset
  else allOffset

/-- The coordinate adjustment of `ScreenshotTool.capture_selected_area`
(lines 837-844): the overlay/canvas selection coordinates are handed to the
crop step unchanged (`img_x1 = x1` and so on) — despite the comment at
line 838 saying the canvas coordinates contain the virtual offset and must
be restored, no offset correction is applied. -/
def capture_translate (x1 y1 x2 y2 : Int) : Int × Int × Int × Int :=
  (x1, y1, x2, y2)

/-- Modelled from the spec: the overlay-to-buffer mapping mandated by §4.3,
`(cx, cy) ↦ (cx - (originOffset.x - virtualRect.left),
cy - (originOffset.y - virtualRect.top))`.  Stated here only to compare
with `capture_translate`, which is what the code actually does. -/
def specTranslate (originOffset virtualOrigin c : Int × Int) : Int × Int :=
  (c.1 - (originOffset.1 - virtualOrigin.1),
   c.2 - (originOffset.2 - virtualOrigin.2))

/-- PIL `Image.crop((l, t, r, b))` produces an image of size
`(r - l, b - t)`; the code reaches it only with `l < r` and `t < b`
(guard at line 853). -/
def cropSize (l t r b : Int) : Int × Int := (r - l, b - t)

/-- The clamping of `capture_selected_area` (lines 847-850):
`img_x1 = max(0, min(img_x1, width - 1))`, `img_y1` likewise against
`height - 1`, `img_x2 = max(0, min(img_x2, width))` and `img_y2` likewise
against `height`. -/
structure ClampedSel where
  cx1 : Int
  cy1 : Int
  cx2 : Int
  cy2 : Int
  deriving Repr, DecidableEq

def clampSel (W H x1 y1 x2 y2 : Int) : ClampedSel :=
  { cx1 := max 0 (min x1 (W - 1)), cy1 := max 0 (min y1 (H - 1)),
    cx2 := max 0 (min x2 W), cy2 := max 0 (min y2 H) }

/-- Observable outcome of one committed-or-cancelled selection session:
whether an error dialog was shown, the size of the cropped image handed to
`save_screenshot` (none when nothing was cropped), and whether the main
window is minimized afterwards. -/
structure SessionResult where
  errorShown : Bool
  savedImage : Option (Int × Int)
  mainWindowMinimized : Bool
  deriving Repr, DecidableEq

/-- The `finally` block of `capture_selected_area` (lines 872-885) and the
restore step of `cancel_screenshot` (lines 1106-1117): `deiconify` when the
window was not minimized before the session, `iconify` (keep minimized)
when it was. -/
def restore_main_window (wasMin : Bool) : Bool :=
  if wasMin then true else false

/-- `ScreenshotTool.capture_selected_area` (lines 821-885) for a capture
buffer of size `W x H`: clamp the selection (lines 847-850); when the
clamped region is degenerate (`img_x2 <= img_x1 or img_y2 <= img_y1`,
line 853) show an error dialog and crop nothing (lines 854-856); otherwise
crop and hand the image to the save step (lines 861-865).  In both cases
the `finally` block restores the main window's prior visibility. -/
def capture_selected_area (W H : Int) (wasMin : Bool)
    (x1 y1 x2 y2 : Int) : SessionResult :=
  let c := clampSel W H x1 y1 x2 y2
  if c.cx2 ≤ c.cx1 ∨ c.cy2 ≤ c.cy1 then
    { errorShown := true, savedImage := none,
      mainWindowMinimized := restore_main_window wasMin }
  else
    { errorShown := false, savedImage := some (cropSize c.cx1 c.cy1 c.cx2 c.cy2),
      mainWindowMinimized := restore_main_window wasMin }

/-- Result of pointer-up as decided by `ScreenshotTool.on_mouse_release`
(lines 803-819). -/
inductive ReleaseAction where
  | committed (x1 y1 x2 y2 : Int)
  | cancelled
  deriving Repr, DecidableEq

/-- `ScreenshotTool.on_mouse_release` (lines 803-819): normalize the drag
rectangle with `min`/`max` (lines 811-814), then commit when
`x2 - x1 > 10 and y2 - y1 > 10` (line 816), else cancel (line 819). -/
def on_mouse_release (sx sy ex ey : Int) : ReleaseAction :=
  let x1 := min sx ex
  let y1 := min sy ey
  let x2 := max sx ex
  let y2 := max sy ey
  if 10 < x2 - x1 ∧ 10 < y2 - y1 then .committed x1 y1 x2 y2
  else .cancelled

/-- One full pointer-up step: a committed release runs
`capture_selected_area`; a cancelled one runs `cancel_screenshot`
(lines 1091-1119), which tears the overlay down, saves nothing, shows no
error, and restores the main window's prior visibility. -/
def release_session (W H : Int) (wasMin : Bool)
    (sx sy ex ey : Int) : SessionResult :=
  match on_mouse_release sx sy ex ey with
  | .committed x1 y1 x2 y2 => capture_selected_area W H wasMin x1 y1 x2 y2
  | .cancelled =>
    { errorShown := false, savedImage := none,
      mainWindowMinimized := restore_main_window wasMin }

/-- `2 ^ e` as a rational, for an integer exponent. -/
def pow2 (e : Int) : ℚ :=
  if 0 ≤ e then ((2 ^ e.toNat : Nat) : ℚ)
  else (1 : ℚ) / ((2 ^ (-e).toNat : Nat) : ℚ)

/-- Fuel-bounded floor-log2 on naturals (`nbits f n = ⌊log2 n⌋` for
`1 ≤ n < 2 ^ f`). -/
def nbits : Nat → Nat → Nat
  | 0, _ => 0
  | f + 1, n => if 2 ≤ n then nbits f (n / 2) + 1 else 0

/-- `⌊log2 q⌋` for a positive rational: the unique `e` with
`pow2 e ≤ q < pow2 (e + 1)`. -/
def log2floorQ (q : ℚ) : Int :=
  let d : Int := (nbits 4096 q.num.natAbs : Int) - (nbits 4096 q.den : Int)
  if pow2 d ≤ q then d else d - 1

/-- Floor of a rational as an integer, computably
(`Int.fdiv` is floor division). -/
def qfloor (q : ℚ) : Int := q.num.fdiv (q.den : Int)

/-- Round a positive rational to the nearest IEEE-754 double-precision
value (53-bit significand, round half to even; overflow and subnormals do
not arise for the magnitudes this program computes). -/
def flPos (q : ℚ) : ℚ :=
  let e := log2floorQ q
  let m := q * pow2 (52 - e)
  let n := qfloor m
  let r := m - (n : ℚ)
  let rounded : Int :=
    if (1 : ℚ) / 2 < r then n + 1
    else if r < (1 : ℚ) / 2 then n
    else if n % 2 = 0 then n else n + 1
  (rounded : ℚ) * pow2 (e - 52)

/-- Round any rational to the nearest double. -/
def fl (q : ℚ) : ℚ :=
  if q = 0 then 0 else if q < 0 then -flPos (-q) else flPos q

/-- Python `int()` on a nonnegative rational: truncation toward zero
(`Int.tdiv` is truncating division). -/
def pyInt (q : ℚ) : Int := q.num.tdiv (q.den : Int)

/-- The encoder-parameter table entries of `save_optimized_image`
(lines 951-976) that affect output dimensions. -/
structure QualitySettings where
  png_compress_level : Nat
  optimize : Bool
  resize_threshold : Int
  resize_max_width : Int
  deriving Repr, DecidableEq

/-- `quality_settings` lookup with `dict.get(quality_preset, quality_settings["low"])`
(line 978): unknown preset names fall back to `"low"`. -/
def quality_settings (preset : String) : QualitySettings :=
  if preset = "medium" then
    { png_compress_level := 6, optimize := true,
      resize_threshold := 2560, resize_max_width := 2048 }
  else if preset = "high" then
    { png_compress_level := 3, optimize := false,
      resize_threshold := 4096, resize_max_width := 3840 }
  else
    { png_compress_level := 9, optimize := true,
      resize_threshold := 9999999, resize_max_width := 9999999 }

/-- Output dimensions of `ScreenshotTool.save_optimized_image`
(lines 984-991), with Python's double-precision float arithmetic modelled
exactly by `fl`: when `width > resize_threshold`, the code computes
`scale = min(resize_max_width / width, 1.0)` (one float division, then an
exact comparison with 1.0) and resizes to
`(int(width * scale), int(height * scale))` (a float product and a
truncation each); otherwise the image keeps its size. -/
def save_optimized_dims (preset : String) (w h : Int) : Int × Int :=
  let s := quality_settings preset
  if s.resize_threshold < w then
    let scale : ℚ := min (fl ((s.resize_max_width : ℚ) / (w : ℚ))) 1
    (pyInt (fl ((w : ℚ) * scale)), pyInt (fl ((h : ℚ) * scale)))
  else (w, h)

/-- The same computation idealized over exact rational arithmetic
(no rounding of `scale` or of the products to doubles). -/
def save_optimized_dims_exact (preset : String) (w h : Int) : Int × Int :=
  let s := quality_settings preset
  if s.resize_threshold < w then
    let scale : ℚ := min ((s.resize_max_width : ℚ) / (w : ℚ)) 1
    (pyInt ((w : ℚ) * scale), pyInt ((h : ℚ) * scale))
  else (w, h)

/-- Possible behaviours of the underlying `img.save(filepath, "PNG", ...)`
call (line 1008), which writes directly to the destination path:
it either succeeds, or raises before the destination file was created, or
raises after creating the file, leaving a partially written file behind. -/
inductive SaveOutcome where
  | success
  | failBeforeCreate
  | failAfterCreate
  deriving Repr, DecidableEq

/-- State after `save_optimized_image` (lines 945-1025): whether it
returned `True`, whether a file exists at the destination path, and
whether that file is a completely written image.  The `except` clause
(lines 1023-1025) only prints and returns `False`; it deletes nothing. -/
structure SaveResult where
  returnedTrue : Bool
  fileOnDisk : Bool
  fileComplete : Bool
  deriving Repr, DecidableEq

def save_optimized_image_run (outcome : SaveOutcome) : SaveResult :=
  match outcome with
  | .success => { returnedTrue := true, fileOnDisk := true, fileComplete := true }
  | .failBeforeCreate => { returnedTrue := false, fileOnDisk := false, fileComplete := false }
  | .failAfterCreate => { returnedTrue := false, fileOnDisk := true, fileComplete := false }

/-- `copy_to_clipboard_with_prefix` (lines 917-943): the clipboard content
is the custom path prelude concatenated with the path when the prelude is
non-empty, else the bare path. -/
def clipboard_content (customPre filepath : String) : String :=
  if customPre ≠ "" then customPre ++ filepath else filepath

/-- Observable state after `save_screenshot` (lines 887-915). -/
structure ScreenshotSaveResult where
  errorShown : Bool
  clipboard : Option String
  fileOnDisk : Bool
  fileComplete : Bool
  deriving Repr, DecidableEq

/-- `ScreenshotTool.save_screenshot` (lines 887-915): when
`save_optimized_image` returns `True`, the final path is copied to the
clipboard (when `auto_copy_path` is set) and no error is shown; when it
returns `False`, an error dialog is shown and the clipboard is untouched.
Nothing in either branch removes files from disk. -/
def save_screenshot_run (outcome : SaveOutcome) (filepath : String)
    (autoCopy : Bool) (customPre : String) : ScreenshotSaveResult :=
  let r := save_optimized_image_run outcome
  if r.returnedTrue then
    { errorShown := false,
      clipboard := if autoCopy then some (clipboard_content customPre filepath) else none,
      fileOnDisk := r.fileOnDisk, fileComplete := r.fileComplete }
  else
    { errorShown := true, clipboard := none,
      fileOnDisk := r.fileOnDisk, fileComplete := r.fileComplete }

/-- Two-display configuration from the spec's own scenario (§8): primary
display A `(0, 0, 1920, 1080)` and secondary display B
`(1920, 0, 3000, 1080)`. -/
def demoMonitors : List Monitor :=
  [{ left := 0, top := 0, right := 1920, bottom := 1080,
     width := 1920, height := 1080, is_primary := true },
   { left := 1920, top := 0, right := 3000, bottom := 1080,
     width := 1080, height := 1080, is_primary := false }]

/-- C1: the claim says the committed overlay rectangle is translated to
capture-buffer coordinates by the offset correction
`(cx - (originOffset.x - virtualRect.left), cy - (originOffset.y - virtualRect.top))`.
The code does no such translation: in `'mouse'` mode a capture of display B
sets `virtual_offset = (1920, 0)` (lines 516-523), the virtual-screen
origin is `(0, 0)`, yet `capture_selected_area` hands the overlay
coordinates to the crop step unchanged (lines 839-842), so overlay point
`(2000, 500)` becomes buffer point `(2000, 500)` where the spec's formula
requires `(80, 500)`.  The comment at line 838 states the offset must be
restored, so the code contradicts its own documentation. -/
theorem c1_crop_coordinates_not_offset_corrected :
    start_virtual_offset "mouse" demoMonitors 2000 500 (0, 0) = (1920, 0) ∧
    capture_translate 2000 500 2500 900 = (2000, 500, 2500, 900) ∧
    specTranslate (1920, 0) (0, 0) (2000, 500) = (80, 500) ∧
    ((2000 : Int), (500 : Int)) ≠ ((80 : Int), (500 : Int)) := by
  refine ⟨?_, rfl, rfl, by decide⟩
  decide

/-- C2 counterexample: a drag whose normalized size is exactly 10 x 10
satisfies the claim's commit condition (width and height each at least 10)
but the code cancels it, because line 816 tests `x2 - x1 > 10` strictly. -/
theorem c2_ten_by_ten_drag_cancelled :
    max (0 : Int) 10 - min (0 : Int) 10 = 10 ∧
    on_mouse_release 0 0 10 10 = ReleaseAction.cancelled := by
  exact ⟨by decide, by decide⟩

/-- C2 amended: pointer-up normalizes the drag rectangle with `min`/`max`
and transitions to Committed if and only if the normalized width and
height are each strictly greater than 10 pixels; otherwise the session is
cancelled, and in particular any drag with width or height below 10 ends
with no cropped image, no error, and the main window restored. -/
theorem c2_commit_iff_strictly_greater_than_ten :
    ∀ sx sy ex ey : Int,
      (on_mouse_release sx sy ex ey =
          ReleaseAction.committed (min sx ex) (min sy ey) (max sx ex) (max sy ey) ↔
        10 < max sx ex - min sx ex ∧ 10 < max sy ey - min sy ey) ∧
      ∀ (W H : Int) (wasMin : Bool),
        max sx ex - min sx ex < 10 ∨ max sy ey - min sy ey < 10 →
          release_session W H wasMin sx sy ex ey =
            { errorShown := false, savedImage := none,
              mainWindowMinimized := restore_main_window wasMin } := by
  intro sx sy ex ey
  constructor
  · by_cases h : 10 < max sx ex - min sx ex ∧ 10 < max sy ey - min sy ey
    · simp [on_mouse_release, h]
    · simp [on_mouse_release, h]
  · intro W H wasMin hlt
    have hrel : on_mouse_release sx sy ex ey = ReleaseAction.cancelled := by
      simp [on_mouse_release]
      omega
    simp [release_session, hrel]

/-- Witness for the amended C2 at a drag of width 5. -/
theorem c2_commit_iff_strictly_greater_than_ten_w :
    (max (0 : Int) 5 - min (0 : Int) 5 < 10 ∨
      max (0 : Int) 20 - min (0 : Int) 20 < 10) ∧
    release_session 400 400 false 0 0 5 20 =
      { errorShown := false, savedImage := none,
        mainWindowMinimized := restore_main_window false } :=
  ⟨by decide,
   (c2_commit_iff_strictly_greater_than_ten 0 0 5 20).2 400 400 false (by decide)⟩

/-- C3: mouse-display resolution returns the first display containing the
pointer under the half-open rule; failing that the first primary display;
failing that index 0 — deterministically, for every pointer position and
non-empty monitor list. -/
theorem c3_mouse_resolution (monitors : List Monitor) (x y : Int)
    (hne : monitors ≠ []) : MouseResolutionSpec monitors x y := by
  unfold MouseResolutionSpec
  cases hc : findFirstIdx (fun m => monitorContains m x y) monitors with
  | some i =>
    obtain ⟨h1, ⟨m, hm, hpm⟩, h3⟩ := findFirstIdx_eq_some _ _ _ hc
    have hg : get_mouse_monitor monitors x y = i := by
      simp [get_mouse_monitor, hc]
    rw [hg]
    refine ⟨h1, fun _ => ⟨m, hm, hpm, h3⟩, fun hall => absurd hpm ?_⟩
    have : m ∈ monitors := by
      have := List.getElem?_eq_some_iff.mp hm
      obtain ⟨hlt, hget⟩ := this
      exact hget ▸ List.getElem_mem hlt
    simp [hall m this]
  | none =>
    have hall : ∀ m ∈ monitors, monitorContains m x y = false :=
      (findFirstIdx_eq_none_iff _ _).mp hc
    cases hp : findFirstIdx (fun m => m.is_primary) monitors with
    | some i =>
      obtain ⟨h1, ⟨m, hm, hpm⟩, h3⟩ := findFirstIdx_eq_some _ _ _ hp
      have hg : get_mouse_monitor monitors x y = i := by
        simp [get_mouse_monitor, hc, hp]
      rw [hg]
      refine ⟨h1, fun hex => ?_, fun _ => ⟨fun _ => ⟨m, hm, hpm, h3⟩, fun hnp => ?_⟩⟩
      · obtain ⟨m', hm', hcont⟩ := hex
        simp [hall m' hm'] at hcont
      · have : m ∈ monitors := by
          obtain ⟨hlt, hget⟩ := List.getElem?_eq_some_iff.mp hm
          exact hget ▸ List.getElem_mem hlt
        simp [hnp m this] at hpm
    | none =>
      have hg : get_mouse_monitor monitors x y = 0 := by
        simp [get_mouse_monitor, hc, hp]
      rw [hg]
      refine ⟨List.length_pos.mpr hne, fun hex => ?_, fun _ => ⟨fun hex => ?_, fun _ => rfl⟩⟩
      · obtain ⟨m', hm', hcont⟩ := hex
        simp [hall m' hm'] at hcont
      · obtain ⟨m', hm', hprim⟩ := hex
        have := (findFirstIdx_eq_none_iff (fun m => m.is_primary) monitors).mp hp m' hm'
        simp [this] at hprim

/-- Witness for C3 on the spec's two-display scenario with the pointer at
`(2000, 500)`, which lies on display B. -/
theorem c3_mouse_resolution_w :
    demoMonitors ≠ [] ∧ MouseResolutionSpec demoMonitors 2000 500 :=
  ⟨by decide, c3_mouse_resolution demoMonitors 2000 500 (by decide)⟩

/-- C4: for a capture buffer of size `W x H` and a selection
`(x1, y1, x2, y2)` with `0 <= x1 < x2 <= W` and `0 <= y1 < y2 <= H`, the
clamp-then-crop step produces an image of exactly size
`(x2 - x1) x (y2 - y1)`. -/
theorem c4_crop_roundtrip (W H x1 y1 x2 y2 : Int) (wasMin : Bool)
    (hx1 : 0 ≤ x1) (hx12 : x1 < x2) (hx2 : x2 ≤ W)
    (hy1 : 0 ≤ y1) (hy12 : y1 < y2) (hy2 : y2 ≤ H) :
    (capture_selected_area W H wasMin x1 y1 x2 y2).savedImage =
      some (x2 - x1, y2 - y1) := by
  have e1 : max 0 (min x1 (W - 1)) = x1 := by omega
  have e2 : max 0 (min y1 (H - 1)) = y1 := by omega
  have e3 : max 0 (min x2 W) = x2 := by omega
  have e4 : max 0 (min y2 H) = y2 := by omega
  simp only [capture_selected_area, clampSel, cropSize, e1, e2, e3, e4]
  rw [if_neg (by omega)]

/-- Witness for C4: a 190 x 100 selection inside a 640 x 480 buffer. -/
theorem c4_crop_roundtrip_w :
    ((0 : Int) ≤ 10 ∧ (10 : Int) < 200 ∧ (200 : Int) ≤ 640 ∧
      (0 : Int) ≤ 20 ∧ (20 : Int) < 120 ∧ (120 : Int) ≤ 480) ∧
    (capture_selected_area 640 480 false 10 20 200 120).savedImage =
      some (190, 100) :=
  ⟨by decide,
   c4_crop_roundtrip 640 480 10 20 200 120 false (by decide) (by decide)
     (by decide) (by decide) (by decide) (by decide)⟩

/-- C5: the translated selection is clamped into `[0, W] x [0, H]`, and a
degenerate (zero-area) clamped rectangle makes the session show an error
dialog, crop and save nothing, and restore the main window to its
pre-session visibility. -/
theorem c5_degenerate_clamp_aborts (W H x1 y1 x2 y2 : Int) (wasMin : Bool)
    (hW : 0 ≤ W) (hH : 0 ≤ H) :
    (0 ≤ (clampSel W H x1 y1 x2 y2).cx1 ∧ (clampSel W H x1 y1 x2 y2).cx1 ≤ W ∧
      0 ≤ (clampSel W H x1 y1 x2 y2).cy1 ∧ (clampSel W H x1 y1 x2 y2).cy1 ≤ H ∧
      0 ≤ (clampSel W H x1 y1 x2 y2).cx2 ∧ (clampSel W H x1 y1 x2 y2).cx2 ≤ W ∧
      0 ≤ (clampSel W H x1 y1 x2 y2).cy2 ∧ (clampSel W H x1 y1 x2 y2).cy2 ≤ H) ∧
    ((clampSel W H x1 y1 x2 y2).cx2 ≤ (clampSel W H x1 y1 x2 y2).cx1 ∨
        (clampSel W H x1 y1 x2 y2).cy2 ≤ (clampSel W H x1 y1 x2 y2).cy1 →
      capture_selected_area W H wasMin x1 y1 x2 y2 =
        { errorShown := true, savedImage := none,
          mainWindowMinimized := restore_main_window wasMin }) := by
  constructor
  · simp only [clampSel]
    refine ⟨by omega, by omega, by omega, by omega, by omega, by omega, by omega, by omega⟩
  · intro h
    simp only [capture_selected_area]
    rw [if_pos h]

/-- Witness for C5: a selection entirely to the left of and above a
100 x 100 buffer clamps to a zero-area rectangle. -/
theorem c5_degenerate_clamp_aborts_w :
    ((0 : Int) ≤ 100 ∧
      (clampSel 100 100 (-50) (-50) (-20) (-20)).cx2 ≤
        (clampSel 100 100 (-50) (-50) (-20) (-20)).cx1) ∧
    capture_selected_area 100 100 true (-50) (-50) (-20) (-20) =
      { errorShown := true, savedImage := none,
        mainWindowMinimized := restore_main_window true } :=
  ⟨⟨by decide, by decide⟩,
   (c5_degenerate_clamp_aborts 100 100 (-50) (-50) (-20) (-20) true
      (by decide) (by decide)).2 (Or.inl (by decide))⟩

/-- C6: display enumeration never propagates a platform failure: an
enumeration exception, an empty enumeration, and the non-Windows path all
yield a single synthetic primary display (1920 x 1080, or the toolkit's
reported size), so the monitor list is non-empty after every call, and in
every fallback case its one display is flagged primary. -/
theorem c6_enumeration_fallback (win32Api : Bool) (outcome : EnumOutcome)
    (tkW tkH : Int) :
    detect_monitors win32Api outcome tkW tkH ≠ [] ∧
    (win32Api = true → outcome = EnumOutcome.failure →
      detect_monitors win32Api outcome tkW tkH = [fallbackMonitor 1920 1080]) ∧
    (win32Api = false →
      detect_monitors win32Api outcome tkW tkH = [fallbackMonitor tkW tkH]) ∧
    (win32Api = true → outcome = EnumOutcome.ok [] →
      detect_monitors win32Api outcome tkW tkH = [fallbackMonitor 1920 1080]) ∧
    (fallbackMonitor tkW tkH).is_primary = true ∧
    (fallbackMonitor 1920 1080).is_primary = true := by
  cases win32Api with
  | false =>
    refine ⟨?_, by simp, fun _ => ?_, by simp, rfl, rfl⟩ <;>
      simp [detect_monitors]
  | true =>
    cases outcome with
    | failure =>
      refine ⟨?_, fun _ _ => ?_, by simp, by simp, rfl, rfl⟩ <;>
        simp [detect_monitors]
    | ok ms =>
      refine ⟨?_, by simp, by simp, fun _ h => ?_, rfl, rfl⟩
      · simp only [detect_monitors]
        by_cases he : (sortMonitors ms).isEmpty
        · simp [he]
        · rw [if_pos trivial, if_neg he]
          exact List.isEmpty_eq_false.mp (Bool.eq_false_iff.mpr he)
      · cases h
        simp [detect_monitors, sortMonitors]

/-- Witness for C6: an enumeration exception on Windows, and the
non-Windows toolkit path with an 800 x 600 primary screen. -/
theorem c6_enumeration_fallback_w :
    detect_monitors true EnumOutcome.failure 800 600 = [fallbackMonitor 1920 1080] ∧
    detect_monitors false (EnumOutcome.ok []) 800 600 = [fallbackMonitor 800 600] :=
  ⟨(c6_enumeration_fallback true EnumOutcome.failure 800 600).2.1 rfl rfl,
   (c6_enumeration_fallback false (EnumOutcome.ok []) 800 600).2.2.1 rfl⟩

/-- C7 counterexample: under preset `"medium"`, the input width 2569
exceeds the threshold 2560, yet the double-precision computation
`int(2569 * (2048 / 2569))` yields 2047, not the claimed maximum width
2048 (`2048 / 2569` rounds down to the nearest double, and the product
rounds below 2048). -/
theorem c7_width_2569_resizes_to_2047 :
    (2560 : Int) < 2569 ∧
    save_optimized_dims "medium" 2569 2000 = (2047, 1594) ∧
    (2047 : Int) ≠ 2048 := by
  refine ⟨by decide, ?_, by decide⟩
  with_unfolding_all decide

/-- C7 amended: under preset `"medium"` and width above the threshold
2560, the scale is `min(2048/width, 1)` and both dimensions are the
truncation of the scaled exact value — so the output width is exactly 2048
when the arithmetic is carried out in exact rationals (double rounding can
lower it to 2047, as the counterexample shows); the concrete input
3000 x 2000 yields 2048 x 1365 in double precision as well; and under
preset `"low"` an image below its resize threshold 9999999 is saved at
its exact original dimensions. -/
theorem c7_resize_dimensions :
    (∀ w h : Int, 2560 < w →
      save_optimized_dims_exact "medium" w h =
        (2048, pyInt ((h : ℚ) * (2048 / (w : ℚ))))) ∧
    save_optimized_dims "medium" 3000 2000 = (2048, 1365) ∧
    (∀ w h : Int, w < 9999999 → save_optimized_dims "low" w h = (w, h)) := by
  refine ⟨?_, by with_unfolding_all decide, ?_⟩
  · intro w h hw
    have hset : quality_settings "medium" =
        { png_compress_level := 6, optimize := true,
          resize_threshold := 2560, resize_max_width := 2048 } := by decide
    have hw0 : (0 : ℚ) < (w : ℚ) := by
      have : (0 : Int) < w := by omega
      exact_mod_cast this
    have hle : (2048 : ℚ) / (w : ℚ) ≤ 1 := by
      rw [div_le_one hw0]
      have : (2048 : Int) ≤ w := by omega
      exact_mod_cast this
    simp only [save_optimized_dims_exact, hset]
    rw [if_pos (by omega)]
    push_cast
    rw [min_eq_left hle]
    have hcancel : (w : ℚ) * ((2048 : ℚ) / (w : ℚ)) = 2048 := by
      field_simp
    rw [hcancel]
    have : pyInt (2048 : ℚ) = 2048 := by with_unfolding_all decide
    rw [this]
  · intro w h hle
    have hset : quality_settings "low" =
        { png_compress_level := 9, optimize := true,
          resize_threshold := 9999999, resize_max_width := 9999999 } := by decide
    simp only [save_optimized_dims, hset]
    rw [if_neg (by omega)]

/-- Witness for the amended C7, at 3000 x 2000 for the exact-rational
medium case and at 800 x 600 for the low case. -/
theorem c7_resize_dimensions_w :
    ((2560 : Int) < 3000 ∧
      save_optimized_dims_exact "medium" 3000 2000 =
        (2048, pyInt ((2000 : ℚ) * (2048 / (3000 : ℚ))))) ∧
    ((800 : Int) < 9999999 ∧ save_optimized_dims "low" 800 600 = (800, 600)) :=
  ⟨⟨by decide, c7_resize_dimensions.1 3000 2000 (by decide)⟩,
   ⟨by decide, c7_resize_dimensions.2.2 800 600 (by decide)⟩⟩

/-- C8: the monitor list sort of line 239 produces a permutation of the
enumerated displays that is sorted under the key order
`(not is_primary, left, top)`; consequently every display flagged primary
precedes every display that is not, so positional indexing (display at
index 0, and the index arithmetic in `get_mouse_monitor` and
`start_area_screenshot`) is deterministic. -/
theorem c8_sort_primary_first (l : List Monitor) :
    (sortMonitors l).Perm l ∧ (sortMonitors l).Sorted monitorOrder ∧
    ∀ i j (hi : i < (sortMonitors l).length) (hj : j < (sortMonitors l).length),
      i ≤ j → ((sortMonitors l).get ⟨j, hj⟩).is_primary = true →
        ((sortMonitors l).get ⟨i, hi⟩).is_primary = true := by
  refine ⟨List.perm_insertionSort _ l, List.sorted_insertionSort _ l, ?_⟩
  intro i j hi hj hij hprim
  rcases Nat.lt_or_eq_of_le hij with hlt | heq
  · have horder :=
      (List.sorted_insertionSort monitorOrder l).rel_get_of_lt
        (a := ⟨i, hi⟩) (b := ⟨j, hj⟩) hlt
    rcases horder with ⟨hp, _⟩ | ⟨hflag, _⟩
    · exact hp
    · show ((List.insertionSort monitorOrder l).get ⟨i, hi⟩).is_primary = true
      rw [hflag]
      exact hprim
  · subst heq
    exact hprim

/-- A configuration with two displays both flagged primary, to exercise
the primary-first consequence of C8 at distinct indices. -/
def twoPrimaryMonitors : List Monitor :=
  [{ left := 100, top := 0, right := 200, bottom := 100,
     width := 100, height := 100, is_primary := true },
   { left := 0, top := 0, right := 100, bottom := 100,
     width := 100, height := 100, is_primary := true }]

/-- Witness for C8 on `twoPrimaryMonitors` at indices 0 and 1. -/
theorem c8_sort_primary_first_w :
    (0 ≤ 1 ∧
      ((sortMonitors twoPrimaryMonitors).get
          ⟨1, by decide⟩).is_primary = true) ∧
    ((sortMonitors twoPrimaryMonitors).get ⟨0, by decide⟩).is_primary = true :=
  ⟨⟨by decide, by decide⟩,
   (c8_sort_primary_first twoPrimaryMonitors).2.2 0 1 (by decide) (by decide)
     (by decide) (by decide)⟩

/-- C9 counterexample: when the PNG encoder fails after the destination
file has been created (the code writes directly to the final path,
line 1008, and the handler at lines 1023-1025 deletes nothing), the save
reports an error but a partial file remains on disk — contradicting the
claim that no partial or corrupt file is left. -/
theorem c9_failed_write_leaves_partly_written_file :
    (save_screenshot_run SaveOutcome.failAfterCreate "shot.png" true "").errorShown = true ∧
    (save_screenshot_run SaveOutcome.failAfterCreate "shot.png" true "").fileOnDisk = true ∧
    (save_screenshot_run SaveOutcome.failAfterCreate "shot.png" true "").fileComplete = false := by
  decide

/-- C9 amended: every encoder or write failure makes `save_optimized_image`
return `False` and `save_screenshot` show a user-visible error, with no
clipboard copy; however a file partially written at the destination before
the failure is left on disk (the code writes directly to the final path
with no temp-and-rename and no cleanup).  On success no error is shown,
the file on disk is complete, and the final path (with the configured
prelude) is what reaches the clipboard. -/
theorem c9_save_failure_reporting (outcome : SaveOutcome) (filepath : String)
    (autoCopy : Bool) (customPre : String) :
    (outcome ≠ SaveOutcome.success →
      (save_screenshot_run outcome filepath autoCopy customPre).errorShown = true ∧
      (save_screenshot_run outcome filepath autoCopy customPre).clipboard = none) ∧
    (outcome = SaveOutcome.success →
      (save_screenshot_run outcome filepath autoCopy customPre).errorShown = false ∧
      (save_screenshot_run outcome filepath autoCopy customPre).fileComplete = true ∧
      (autoCopy = true →
        (save_screenshot_run outcome filepath autoCopy customPre).clipboard =
          some (clipboard_content customPre filepath))) := by
  cases outcome <;>
    simp [save_screenshot_run, save_optimized_image_run]

/-- Witness for amended C9: a clean failure shows an error; a success
copies the prefixed path. -/
theorem c9_save_failure_reporting_w :
    (SaveOutcome.failBeforeCreate ≠ SaveOutcome.success ∧
      (save_screenshot_run SaveOutcome.failBeforeCreate "shot.png" true "p: ").errorShown = true ∧
      (save_screenshot_run SaveOutcome.failBeforeCreate "shot.png" true "p: ").clipboard = none) ∧
    (SaveOutcome.success = SaveOutcome.success ∧ true = true ∧
      (save_screenshot_run SaveOutcome.success "shot.png" true "p: ").clipboard =
        some (clipboard_content "p: " "shot.png")) :=
  ⟨⟨by decide,
    (c9_save_failure_reporting SaveOutcome.failBeforeCreate "shot.png" true "p: ").1
      (by decide)⟩,
   ⟨rfl, rfl,
    ((c9_save_failure_reporting SaveOutcome.success "shot.png" true "p: ").2 rfl).2.2 rfl⟩⟩

/-- C10: for every quality preset the decision to downscale depends only
on the width: an image whose width is at most the preset's
`resize_threshold` is saved at its original dimensions, whatever its
height. -/
theorem c10_resize_depends_only_on_width (preset : String) (w h : Int)
    (hle : w ≤ (quality_settings preset).resize_threshold) :
    save_optimized_dims preset w h = (w, h) := by
  simp only [save_optimized_dims]
  rw [if_neg (by omega)]

/-- Witness for C10: a 3000 x 2000000 image under preset `"high"`
(threshold 4096) is not resized despite its enormous height. -/
theorem c10_resize_depends_only_on_width_w :
    (3000 : Int) ≤ (quality_settings "high").resize_threshold ∧
    save_optimized_dims "high" 3000 2000000 = (3000, 2000000) :=
  ⟨by decide, c10_resize_depends_only_on_width "high" 3000 2000000 (by decide)⟩
